import Mathlib

/-!
Verification of the rust-search-ui session browser
(src/rust-search-ui/src/main.rs) against its specification.

The Rust program is shallowly embedded: `String` values stay `String`
(Lean strings are lists of characters, and all text handled by the claims
is ASCII, where Rust's byte-wise order coincides with the code-point
order used here), `usize` fields become `Nat`, `i64` becomes `Int`, and
the external collaborators (the tantivy index, the file system, the
`HOME` environment variable and the current UTC year read by chrono)
are passed in as explicit parameters.  Calls into the chrono library
(`NaiveDate::parse_from_str`, `DateTime::parse_from_rfc3339`) are
modelled from chrono's documented behaviour for the exact format
strings appearing in the source.
-/

namespace SearchUI

/-! ### Character-list string primitives

Rust `String` comparison is byte-wise lexicographic; on UTF-8 that
equals code-point lexicographic order, modelled here on `List Char`. -/

/-- Byte-wise (code-point) lexicographic strict order, Rust `str`'s `Ord`. -/
def listLt : List Char → List Char → Bool
  | [], [] => false
  | [], _ :: _ => true
  | _ :: _, [] => false
  | a :: as, b :: bs =>
      decide (a.toNat < b.toNat) || (decide (a.toNat = b.toNat) && listLt as bs)

theorem listLt_ge_total : ∀ a b : List Char, listLt a b = false ∨ listLt b a = false := by
  intro a
  induction a with
  | nil => intro b; cases b <;> simp [listLt]
  | cons c cs ih =>
      intro b
      cases b with
      | nil => simp [listLt]
      | cons d ds =>
          rcases Nat.lt_trichotomy c.toNat d.toNat with h | h | h
          · right; simp [listLt]; omega
          · rcases ih ds with h' | h'
            · left; simp [listLt, h', h]
            · right; simp [listLt, h', h]
          · left; simp [listLt]; omega

theorem listLt_ge_trans : ∀ a b c : List Char,
    listLt a b = false → listLt b c = false → listLt a c = false := by
  intro a
  induction a with
  | nil =>
      intro b c hab hbc
      cases b with
      | nil => exact hbc
      | cons d ds => simp [listLt] at hab
  | cons x xs ih =>
      intro b c hab hbc
      cases b with
      | nil => cases c with
        | nil => simp [listLt]
        | cons z zs => simp [listLt] at hbc
      | cons y ys =>
          cases c with
          | nil => simp [listLt]
          | cons z zs =>
              simp only [listLt, Bool.or_eq_false_iff, Bool.and_eq_false_iff,
                decide_eq_false_iff_not, not_lt] at hab hbc ⊢
              rcases hab with ⟨hab1, hab2⟩
              rcases hbc with ⟨hbc1, hbc2⟩
              refine ⟨by omega, ?_⟩
              rcases hab2 with h | h
              · left; omega
              · rcases hbc2 with h' | h'
                · left; omega
                · right; exact ih ys zs h h'

/-- ASCII lower-casing of one character; models the effect of Rust's
`to_lowercase` on the ASCII text the viewer search handles. -/
def charLower (c : Char) : Char :=
  if c.toNat ≥ 65 ∧ c.toNat ≤ 90 then Char.ofNat (c.toNat + 32) else c

def lowerChars (cs : List Char) : List Char := cs.map charLower

/-- Rust `str::trim`: strip leading and trailing whitespace. -/
def trimChars (cs : List Char) : List Char :=
  ((cs.dropWhile Char.isWhitespace).reverse.dropWhile Char.isWhitespace).reverse

/-- Rust `str::replace pat rep` for a non-empty pattern: replace every
non-overlapping occurrence, scanning left to right. -/
def replaceList (pat rep : List Char) : List Char → List Char
  | [] => []
  | c :: rest =>
      if h : pat ≠ [] ∧ pat.isPrefixOf (c :: rest) then
        rep ++ replaceList pat rep ((c :: rest).drop pat.length)
      else
        c :: replaceList pat rep rest
  termination_by s => s.length
  decreasing_by
    · simp only [List.length_drop]
      cases pat with
      | nil => exact absurd rfl h.1
      | cons p ps => simp; omega
    · simp

/-- `text.replace("<b>", "").replace("</b>", "")` — main.rs `strip_html_tags`. -/
def strip_html_tags (text : String) : String :=
  ⟨replaceList "</b>".data [] (replaceList "<b>".data [] text.data)⟩

/-! ### Dates (model of the chrono calls in main.rs) -/

def isLeapYear (y : Nat) : Bool :=
  y % 4 = 0 && (y % 100 ≠ 0 || y % 400 = 0)

def daysInMonth (y m : Nat) : Nat :=
  if m = 2 then (if isLeapYear y then 29 else 28)
  else if m = 4 ∨ m = 6 ∨ m = 9 ∨ m = 11 then 30
  else 31

/-- Validity check performed by chrono when a parsed `(y, m, d)` triple is
resolved into a `NaiveDate`. -/
def validYmd (y m d : Nat) : Bool :=
  1 ≤ m && m ≤ 12 && 1 ≤ d && d ≤ daysInMonth y m

def digitChar (n : Nat) : Char := Char.ofNat (48 + n % 10)

/-- Zero-padded two-digit decimal (all values reaching it are < 100). -/
def pad2 (n : Nat) : List Char := [digitChar (n / 10), digitChar n]

/-- Zero-padded four-digit decimal (all years reaching it are < 10000). -/
def pad4 (n : Nat) : List Char :=
  [digitChar (n / 1000), digitChar (n / 100), digitChar (n / 10), digitChar n]

def charDigit (c : Char) : Nat := c.toNat - 48

/-- Greedy numeric field of a chrono format string: consume between one and
`maxW` leading digits. -/
def parseDigitsUpTo (maxW : Nat) (cs : List Char) : Option (Nat × List Char) :=
  let ds := (cs.take maxW).takeWhile Char.isDigit
  if ds.isEmpty then none
  else some (ds.foldl (fun acc c => 10 * acc + charDigit c) 0, cs.drop ds.length)

/-- Fixed-width numeric field (RFC 3339): exactly `k` digits. -/
def parseDigitsExact (k : Nat) (cs : List Char) : Option (Nat × List Char) :=
  let ds := cs.take k
  if ds.length = k ∧ ds.all Char.isDigit then
    some (ds.foldl (fun acc c => 10 * acc + charDigit c) 0, cs.drop k)
  else none

/-- One token of a chrono date format string. -/
inductive FmtTok where
  | y4
  | y2
  | nm
  | nd
  | lit (c : Char)
deriving DecidableEq

/-- Model of `NaiveDate::parse_from_str` for a pure date format: run the
tokens over the input, require full consumption, map a two-digit year as
chrono does (0–68 ↦ 2000s, 69–99 ↦ 1900s) and validate the date. -/
def runFmt : List FmtTok → List Char → Option Nat → Option Nat → Option Nat →
    Option (Nat × Nat × Nat)
  | [], cs, oy, om, od =>
      if cs.isEmpty then
        match oy, om, od with
        | some y, some m, some d => if validYmd y m d then some (y, m, d) else none
        | _, _, _ => none
      else none
  | .y4 :: ts, cs, _, om, od =>
      match parseDigitsUpTo 4 cs with
      | some (v, rest) => runFmt ts rest (some v) om od
      | none => none
  | .y2 :: ts, cs, _, om, od =>
      match parseDigitsUpTo 2 cs with
      | some (v, rest) =>
          runFmt ts rest (some (if v ≤ 68 then 2000 + v else 1900 + v)) om od
      | none => none
  | .nm :: ts, cs, oy, _, od =>
      match parseDigitsUpTo 2 cs with
      | some (v, rest) => runFmt ts rest oy (some v) od
      | none => none
  | .nd :: ts, cs, oy, om, _ =>
      match parseDigitsUpTo 2 cs with
      | some (v, rest) => runFmt ts rest oy om (some v)
      | none => none
  | .lit c :: ts, cs, oy, om, od =>
      match cs with
      | c' :: rest => if c' = c then runFmt ts rest oy om od else none
      | [] => none

/-- The format list of `parse_flexible_date`, in source order: the two-digit
year variant precedes the four-digit one for each separator. -/
def flexFormats : List (List FmtTok) :=
  [ [.y4, .nm, .nd],                              -- "%Y%m%d"
    [.y4, .lit '-', .nm, .lit '-', .nd],          -- "%Y-%m-%d"
    [.nm, .lit '/', .nd, .lit '/', .y2],          -- "%m/%d/%y"
    [.nm, .lit '-', .nd, .lit '-', .y2],          -- "%m-%d-%y"
    [.nm, .lit '/', .nd, .lit '/', .y4],          -- "%m/%d/%Y"
    [.nm, .lit '-', .nd, .lit '-', .y4],          -- "%m-%d-%Y"
    [.y4, .lit '/', .nm, .lit '/', .nd] ]         -- "%Y/%m/%d"

def tryFormats (fmts : List (List FmtTok)) (cs : List Char) : Option (Nat × Nat × Nat) :=
  match fmts with
  | [] => none
  | f :: fs =>
      match runFmt f cs none none none with
      | some r => some r
      | none => tryFormats fs cs

/-- main.rs `parse_flexible_date`.  `currentYear` stands for
`chrono::Utc::now().format("%Y")`, consulted only by the short `MM/DD`
and `MM-DD` fallback formats.  Returns `(comparison, display)` =
(`%Y%m%d`, `%m/%d/%y`) renderings of the parsed date. -/
def parse_flexible_date (currentYear : Nat) (input : String) : Option (String × String) :=
  let cs := trimChars input.data
  if cs.isEmpty then none
  else
    let fromYmd : Nat × Nat × Nat → String × String := fun (y, m, d) =>
      (⟨pad4 y ++ pad2 m ++ pad2 d⟩,
       ⟨pad2 m ++ '/' :: pad2 d ++ '/' :: pad2 (y % 100)⟩)
    match tryFormats flexFormats cs with
    | some r => some (fromYmd r)
    | none =>
        -- "MM/DD" / "MM-DD" with the current year appended: the source parses
        -- "{input}/{current_year}" with "{fmt}/%Y", which consumes the input
        -- by the short format and fixes the year to the current one.
        match runFmt [.nm, .lit '/', .nd] cs (some currentYear) none none with
        | some r => some (fromYmd r)
        | none =>
            match runFmt [.nm, .lit '-', .nd] cs (some currentYear) none none with
            | some r => some (fromYmd r)
            | none => none

/-- Consume one expected literal character. -/
def expectChar (c : Char) : List Char → Option (List Char)
  | c' :: rest => if c' = c then some rest else none
  | [] => none

/-- Consume an optional fractional-seconds part (`.` plus at least one
digit); absent is fine. -/
def parseOptFrac (cs : List Char) : Option (List Char) :=
  match cs with
  | '.' :: r =>
      let ds := r.takeWhile Char.isDigit
      if ds.isEmpty then none else some (r.drop ds.length)
  | _ => some cs

/-- Consume an RFC 3339 offset (`Z`, `z` or `±HH:MM`) ending the input. -/
def parseOffset (cs : List Char) : Option Unit :=
  match cs with
  | ['Z'] => some ()
  | ['z'] => some ()
  | c :: rest =>
      if c = '+' ∨ c = '-' then do
        let (oh, o1) ← parseDigitsExact 2 rest
        let o2 ← expectChar ':' o1
        let (om, o3) ← parseDigitsExact 2 o2
        if o3.isEmpty ∧ oh ≤ 23 ∧ om ≤ 59 then some () else none
      else none
  | [] => none

/-- Model of `DateTime::parse_from_rfc3339` restricted to the date it
yields: fixed-width fields `YYYY-MM-DDtHH:MM:SS`, an optional fractional
part, and a `Z` or `±HH:MM` offset.  The source formats the parsed value
with `%Y%m%d` in its own offset, so the literal date digits are returned. -/
def parseRfc3339Ymd (cs : List Char) : Option (Nat × Nat × Nat) := do
  let (y, r1) ← parseDigitsExact 4 cs
  let r2 ← expectChar '-' r1
  let (mo, r3) ← parseDigitsExact 2 r2
  let r4 ← expectChar '-' r3
  let (d, r5) ← parseDigitsExact 2 r4
  let r6 ← (match r5 with
            | s :: rest => if s = 'T' ∨ s = 't' ∨ s = ' ' then some rest else none
            | [] => none)
  let (h, r7) ← parseDigitsExact 2 r6
  let r8 ← expectChar ':' r7
  let (mi, r9) ← parseDigitsExact 2 r8
  let r10 ← expectChar ':' r9
  let (s, r11) ← parseDigitsExact 2 r10
  let r12 ← parseOptFrac r11
  let _ ← parseOffset r12
  if validYmd y mo d ∧ h ≤ 23 ∧ mi ≤ 59 ∧ s ≤ 60 then some (y, mo, d) else none

/-- Model of `NaiveDateTime::parse_from_str(_, "%Y-%m-%dT%H:%M:%S%.f")`
restricted to the date it yields. -/
def parseNaiveYmd (cs : List Char) : Option (Nat × Nat × Nat) := do
  let (y, r1) ← parseDigitsUpTo 4 cs
  let r2 ← expectChar '-' r1
  let (mo, r3) ← parseDigitsUpTo 2 r2
  let r4 ← expectChar '-' r3
  let (d, r5) ← parseDigitsUpTo 2 r4
  let r6 ← expectChar 'T' r5
  let (h, r7) ← parseDigitsUpTo 2 r6
  let r8 ← expectChar ':' r7
  let (mi, r9) ← parseDigitsUpTo 2 r8
  let r10 ← expectChar ':' r9
  let (s, r11) ← parseDigitsUpTo 2 r10
  let r12 ← parseOptFrac r11
  if r12.isEmpty ∧ validYmd y mo d ∧ h ≤ 23 ∧ mi ≤ 59 ∧ s ≤ 60 then
    some (y, mo, d)
  else none

/-- main.rs `extract_date_for_comparison`: normalize a stored timestamp to
`YYYYMMDD`, trying RFC 3339, then the naive format, then the first ten
characters as `%Y-%m-%d`. -/
def extract_date_for_comparison (timestamp : String) : Option String :=
  match parseRfc3339Ymd timestamp.data with
  | some (y, m, d) => some ⟨pad4 y ++ pad2 m ++ pad2 d⟩
  | none =>
  match parseNaiveYmd timestamp.data with
  | some (y, m, d) => some ⟨pad4 y ++ pad2 m ++ pad2 d⟩
  | none =>
    if timestamp.data.length ≥ 10 then
      match runFmt [.y4, .lit '-', .nm, .lit '-', .nd] (timestamp.data.take 10)
          none none none with
      | some (y, m, d) => some ⟨pad4 y ++ pad2 m ++ pad2 d⟩
      | none => none
    else none

/-! ### Session data and application state (main.rs `Session`, `App`) -/

structure Session where
  session_id : String
  agent : String
  project : String
  branch : String
  cwd : String
  created : String
  modified : String
  lines : Int
  export_path : String
  first_msg_role : String
  first_msg_content : String
  last_msg_role : String
  last_msg_content : String
  derivation_type : String
  is_sidechain : Bool
  claude_home : String
deriving Repr, DecidableEq

def defaultSession : Session :=
  ⟨"", "", "", "", "", "", "", 0, "", "", "", "", "", "", false, ""⟩

instance : Inhabited Session := ⟨defaultSession⟩

inductive InputMode where
  | minLines
  | agent
  | jumpToLine
  | afterDate
  | beforeDate
  | scopeDir
deriving DecidableEq, Repr

inductive ActionMode where
  | viewOrActions
deriving DecidableEq, Repr

/-- The mutable TUI state, field for field as in main.rs `struct App`.
`search_snippets` (a `HashMap` keyed by unique session ids) is an
association list. -/
structure App where
  sessions : List Session
  filtered : List Nat
  query : String
  selected : Nat
  list_scroll : Nat
  preview_scroll : Nat
  should_quit : Bool
  should_select : Option Session
  total_sessions : Nat
  scope_global : Bool
  launch_cwd : String
  index_path : String
  search_snippets : List (String × String)
  include_original : Bool
  include_sub : Bool
  include_trimmed : Bool
  include_continued : Bool
  filter_agent : Option String
  filter_min_lines : Option Int
  filter_after_date : Option String
  filter_after_date_display : Option String
  filter_before_date : Option String
  filter_before_date_display : Option String
  filter_claude_home : Option String
  filter_codex_home : Option String
  command_mode : Bool
  full_view_mode : Bool
  full_content : String
  full_content_scroll : Nat
  view_search_mode : Bool
  view_search_pattern : String
  view_search_matches : List Nat
  view_search_current : Nat
  jump_input : String
  input_mode : Option InputMode
  input_buffer : String
  action_mode : Option ActionMode
  filter_modal_open : Bool
  filter_modal_selected : Nat
  scope_modal_open : Bool
  scope_modal_selected : Nat
  filter_dir : Option String
  max_results : Option Nat
  sort_by_time : Bool
  confirming_exit : Bool

/-- The program's boundary to the outside world: the tantivy index
(`search_tantivy`, as a function of index path, query and the two home
filters, returning the snippet map and the ranked id list), the composite
of `fs::read_to_string` with `parse_jsonl_to_conversation` used when the
full viewer opens a transcript, the `HOME` environment variable, and the
current UTC year that chrono reports to `parse_flexible_date`. -/
structure Env where
  search : String → String → Option String → Option String →
      List (String × String) × List String
  loadContent : String → String
  home : String
  currentYear : Nat

def assocFind {α : Type} (m : List (String × α)) (k : String) : Option α :=
  match m with
  | [] => none
  | (k', v) :: rest => if k' = k then some v else assocFind rest k

/-! ### The filter predicates (main.rs `App::filter`, lines 615–709)

The filter closure returns early with `false` at each failing check;
it returns `true` exactly when every check passes, so it is the
conjunction of the following predicates, one per check block. -/

/-- Home filter (lines 621–636): a codex session is checked against
`filter_codex_home`, any other against `filter_claude_home`; a session
with an empty recorded home always passes. -/
def homePasses (a : App) (s : Session) : Bool :=
  if s.agent = "codex" then
    match a.filter_codex_home with
    | some codex_home => s.claude_home.data.isEmpty || s.claude_home = codex_home
    | none => true
  else
    match a.filter_claude_home with
    | some home => s.claude_home.data.isEmpty || s.claude_home = home
    | none => true

/-- Scope filter (lines 638–651): a `--dir` override matches the exact
directory or a subdirectory; otherwise local scope requires a non-empty
`cwd` to equal the launch directory, and global scope passes all. -/
def scopePasses (a : App) (s : Session) : Bool :=
  match a.filter_dir with
  | some filter_dir =>
      s.cwd.data.isEmpty ||
        (s.cwd = filter_dir || (filter_dir.data ++ ['/']).isPrefixOf s.cwd.data)
  | none => a.scope_global || s.cwd.data.isEmpty || s.cwd = a.launch_cwd

/-- Type-inclusion filter (lines 653–673): sub-agents are governed solely
by `include_sub`; others branch on `derivation_type`, unknown values kept. -/
def typePasses (a : App) (s : Session) : Bool :=
  if s.is_sidechain then
    a.include_sub
  else if s.derivation_type = "" then a.include_original
  else if s.derivation_type = "trimmed" then a.include_trimmed
  else if s.derivation_type = "continued" then a.include_continued
  else true

/-- Agent filter (lines 675–680). -/
def agentPasses (a : App) (s : Session) : Bool :=
  match a.filter_agent with
  | some ag => s.agent = ag
  | none => true

/-- Minimum-lines filter (lines 682–687). -/
def minLinesPasses (a : App) (s : Session) : Bool :=
  match a.filter_min_lines with
  | some min => decide (min ≤ s.lines)
  | none => true

/-- After-date filter (lines 689–696): skipped when the modified
timestamp does not normalize to a date. -/
def afterPasses (a : App) (s : Session) : Bool :=
  match a.filter_after_date with
  | some after_date =>
      match extract_date_for_comparison s.modified with
      | some session_date => !(listLt session_date.data after_date.data)
      | none => true
  | none => true

/-- Before-date filter (lines 697–703): skipped when the modified
timestamp does not normalize to a date. -/
def beforePasses (a : App) (s : Session) : Bool :=
  match a.filter_before_date with
  | some before_date =>
      match extract_date_for_comparison s.modified with
      | some session_date => !(listLt before_date.data session_date.data)
      | none => true
  | none => true

/-- The whole filter closure of `App::filter`. -/
def sessionPasses (a : App) (s : Session) : Bool :=
  homePasses a s && scopePasses a s && typePasses a s && agentPasses a s &&
    minLinesPasses a s && afterPasses a s && beforePasses a s

/-! ### Sorting (main.rs lines 727–760)

Rust's `sort_by`/`sort_by_key` is a stable sort; a stable sort under a
total preorder has a unique result, here realized by `List.insertionSort`
with the matching "may come before" relation. -/

def modifiedOf (a : App) (i : Nat) : String :=
  (a.sessions.getD i defaultSession).modified

/-- Index `i` may precede index `j` under
`sort_by(|a, b| sessions[b].modified.cmp(&sessions[a].modified))`:
the comparator answers `Less | Equal`, i.e. not `modified i < modified j`. -/
def modDescRel (a : App) (i j : Nat) : Prop :=
  listLt (modifiedOf a i).data (modifiedOf a j).data = false

instance (a : App) : DecidableRel (modDescRel a) := fun i j =>
  inferInstanceAs (Decidable (listLt (modifiedOf a i).data (modifiedOf a j).data = false))

instance (a : App) : IsTotal Nat (modDescRel a) :=
  ⟨fun i j => listLt_ge_total (modifiedOf a i).data (modifiedOf a j).data⟩

instance (a : App) : IsTrans Nat (modDescRel a) :=
  ⟨fun i j k => listLt_ge_trans (modifiedOf a i).data (modifiedOf a j).data
    (modifiedOf a k).data⟩

/-- `usize::MAX`, the rank of a session id missing from the ranked list. -/
def usizeMax : Nat := 2 ^ 64 - 1

/-- Position map built from `ranked_ids.iter().enumerate()` into a
`HashMap` (a later insertion of a duplicate id overwrites an earlier one). -/
def rankPos (ranked : List String) (id : String) : Nat :=
  (ranked.enum.foldl
    (fun acc p => if p.2 = id then some p.1 else acc) none).getD usizeMax

/-- Index `i` may precede index `j` under
`sort_by_key(|&i| rank_pos[sessions[i].session_id])`. -/
def rankRel (a : App) (ranked : List String) (i j : Nat) : Prop :=
  rankPos ranked (a.sessions.getD i defaultSession).session_id ≤
    rankPos ranked (a.sessions.getD j defaultSession).session_id

instance (a : App) (ranked : List String) : DecidableRel (rankRel a ranked) :=
  fun i j =>
    inferInstanceAs
      (Decidable (rankPos ranked (a.sessions.getD i defaultSession).session_id ≤
        rankPos ranked (a.sessions.getD j defaultSession).session_id))

instance (a : App) (ranked : List String) : IsTotal Nat (rankRel a ranked) :=
  ⟨fun i j => Nat.le_total _ _⟩

instance (a : App) (ranked : List String) : IsTrans Nat (rankRel a ranked) :=
  ⟨fun i j k => Nat.le_trans⟩

/-- The `enumerate().filter(..).map(i)` stage of `App::filter`
(lines 616–709): the indices of the sessions passing every predicate. -/
def baseFiltered (a : App) : List Nat :=
  (List.range a.sessions.length).filter
    (fun i => sessionPasses a (a.sessions.getD i defaultSession))

/-- `self.filtered.truncate(limit)` when `max_results` is set (lines 762–765). -/
def truncateResults (a : App) (l : List Nat) : List Nat :=
  match a.max_results with
  | some limit => l.take limit
  | none => l

/-- Reordering of the query-matching rows: by recency under `Ctrl-S`
time sort, else by the tantivy ranking (lines 727–748). -/
def sortKept (env : Env) (a : App) (kept : List Nat) : List Nat :=
  if a.sort_by_time then
    List.insertionSort (modDescRel a) kept
  else
    List.insertionSort
      (rankRel a (env.search a.index_path a.query a.filter_claude_home a.filter_codex_home).2)
      kept

/-- The body of `App::filter` up to the final resets: the new `filtered`
index list and the new snippet map.  The source's
`if !query.trim().is_empty() { A } else { B }` and
`if !snippets.is_empty() { C } else { D }` appear with the branches
swapped under the un-negated conditions. -/
def filterCore (env : Env) (a : App) : List Nat × List (String × String) :=
  if (trimChars a.query.data).isEmpty then
    (truncateResults a (List.insertionSort (modDescRel a) (baseFiltered a)), [])
  else if (env.search a.index_path a.query a.filter_claude_home a.filter_codex_home).1.isEmpty then
    ([], [])
  else
    (truncateResults a
      (sortKept env a
        ((baseFiltered a).filter
          (fun i =>
            (assocFind
              (env.search a.index_path a.query a.filter_claude_home a.filter_codex_home).1
              (a.sessions.getD i defaultSession).session_id).isSome))),
     (env.search a.index_path a.query a.filter_claude_home a.filter_codex_home).1)

/-- main.rs `App::filter`: recompute `filtered` and the snippet map, then
reset selection and scroll offsets (lines 767–769). -/
def App.filter (env : Env) (a : App) : App :=
  let core := filterCore env a
  { a with
    filtered := core.1
    search_snippets := core.2
    selected := 0
    list_scroll := 0
    preview_scroll := 0 }

/-! ### App methods used by the input dispatcher (main.rs lines 772–954) -/

/-- Rust `str::lines`: split on `'\n'`, drop a final empty piece, strip a
trailing `'\r'` from each line. -/
def splitNl : List Char → List Char → List (List Char)
  | [], acc => [acc.reverse]
  | '\n' :: rest, acc => acc.reverse :: splitNl rest []
  | c :: rest, acc => splitNl rest (c :: acc)

def rustLines (s : String) : List String :=
  let parts := splitNl s.data []
  let parts := match parts.getLast? with
    | some [] => parts.dropLast
    | _ => parts
  parts.map (fun l => ⟨if l.getLast? = some '\r' then l.dropLast else l⟩)

/-- `str::parse::<usize>` on the digit-only buffers the prompts collect. -/
def parseUsize (s : String) : Option Nat :=
  if s.data ≠ [] ∧ s.data.all Char.isDigit then
    let v := s.data.foldl (fun acc c => 10 * acc + charDigit c) 0
    if v ≤ usizeMax then some v else none
  else none

/-- `str::parse::<i64>` on the digit-only buffers the prompts collect. -/
def parseI64 (s : String) : Option Int :=
  if s.data ≠ [] ∧ s.data.all Char.isDigit then
    let v := s.data.foldl (fun acc c => 10 * acc + charDigit c) 0
    if v ≤ 2 ^ 63 - 1 then some (v : Int) else none
  else none

def App.selected_session (a : App) : Option Session :=
  (a.filtered.get? a.selected).map (fun i => a.sessions.getD i defaultSession)

def App.on_char (env : Env) (c : Char) (a : App) : App :=
  App.filter env { a with query := ⟨a.query.data ++ [c]⟩ }

def App.on_backspace (env : Env) (a : App) : App :=
  App.filter env { a with query := ⟨a.query.data.dropLast⟩ }

def App.has_active_filters (a : App) : Bool :=
  !a.query.data.isEmpty || a.filter_min_lines.isSome || a.filter_after_date.isSome ||
    a.filter_before_date.isSome || a.filter_agent.isSome || !a.include_original ||
    a.include_sub || !a.include_trimmed || !a.include_continued

def App.on_escape (env : Env) (a : App) : App :=
  if a.query.data.isEmpty then
    if a.has_active_filters then { a with confirming_exit := true }
    else { a with should_quit := true }
  else App.filter env { a with query := "" }

def App.on_up (a : App) : App :=
  if !a.filtered.isEmpty then
    { a with selected := a.selected - 1, preview_scroll := 0 }
  else a

def App.on_down (a : App) : App :=
  if !a.filtered.isEmpty then
    { a with selected := min (a.selected + 1) (a.filtered.length - 1), preview_scroll := 0 }
  else a

def App.page_up (a : App) (n : Nat) : App :=
  if !a.filtered.isEmpty then
    { a with selected := a.selected - n, preview_scroll := 0 }
  else a

def App.page_down (a : App) (n : Nat) : App :=
  if !a.filtered.isEmpty then
    { a with selected := min (a.selected + n) (a.filtered.length - 1), preview_scroll := 0 }
  else a

def App.on_enter (a : App) : App :=
  match a.selected_session with
  | some s => { a with should_select := some s, should_quit := true }
  | none => a

/-- main.rs lines 890–896: select the 1-indexed `row` only when it is in
range, and clear the jump buffer either way.  There is no clamping. -/
def App.jump_to_row (a : App) (row : Nat) : App :=
  let a' :=
    if 0 < row ∧ row ≤ a.filtered.length then
      { a with selected := row - 1, preview_scroll := 0 }
    else a
  { a' with jump_input := "" }

def App.process_jump_enter (a : App) : App :=
  let a' :=
    match parseUsize a.jump_input with
    | some row => a.jump_to_row row
    | none => a
  { a' with jump_input := "" }

def App.update_view_search_matches (a : App) : App :=
  if a.view_search_pattern.data.isEmpty then
    { a with view_search_matches := [], view_search_current := 0 }
  else
    let pat := lowerChars a.view_search_pattern.data
    { a with
      view_search_current := 0
      view_search_matches :=
        ((rustLines a.full_content).enum.filter
          (fun p => decide (pat <:+: lowerChars p.2.data))).map Prod.fst }

def App.view_search_next (a : App) : App :=
  if a.view_search_matches.isEmpty then a
  else
    let cur := (a.view_search_current + 1) % a.view_search_matches.length
    { a with view_search_current := cur,
             full_content_scroll := a.view_search_matches.getD cur 0 }

def App.view_search_prev (a : App) : App :=
  if a.view_search_matches.isEmpty then a
  else
    let cur :=
      if a.view_search_current = 0 then a.view_search_matches.length - 1
      else a.view_search_current - 1
    { a with view_search_current := cur,
             full_content_scroll := a.view_search_matches.getD cur 0 }

/-! ### Render-time scroll clamps

The renderer, not the key handlers, clamps the scroll offsets:
`render_preview` (main.rs lines 1678–1681) and
`render_full_conversation` (lines 2007–2011). -/

/-- Preview clamp: `numLines` is the number of built preview lines,
`visible` the pane height. -/
def clampPreviewScroll (numLines visible : Nat) (a : App) : App :=
  { a with preview_scroll := min a.preview_scroll (numLines - min visible numLines) }

/-- Full-view clamp: `max_scroll = content_lines.len().saturating_sub(1)`. -/
def clampFullScroll (a : App) : App :=
  if a.full_content_scroll > (rustLines a.full_content).length - 1 then
    { a with full_content_scroll := (rustLines a.full_content).length - 1 }
  else a

/-! ### The input dispatcher (main.rs event loop, lines 3272–3845)

One key press is routed to exactly one mode handler, in the source's
if-else order.  `usize::saturating_add` saturates at `usize::MAX`. -/

inductive KeyCode where
  | char (c : Char)
  | enter
  | esc
  | backspace
  | up
  | down
  | pageUp
  | pageDown
  | homeKey
  | endKey
  | other
deriving DecidableEq, Repr

structure KeyEvent where
  code : KeyCode
  ctrl : Bool
deriving DecidableEq, Repr

def satAdd (x n : Nat) : Nat := min (x + n) usizeMax

/-- Exit-confirmation dialog (lines 3283–3294). -/
def stepConfirmExit (ev : KeyEvent) (a : App) : App :=
  match ev.code with
  | .enter => { a with should_quit := true }
  | .char c =>
      if c = 'y' ∨ c = 'Y' then { a with should_quit := true }
      else if c = 'n' ∨ c = 'N' then { a with confirming_exit := false }
      else a
  | .esc => { a with confirming_exit := false }
  | _ => a

/-- Full view, typing the search pattern (lines 3298–3321). -/
def stepViewSearchInput (ev : KeyEvent) (a : App) : App :=
  match ev.code with
  | .esc => { a with view_search_mode := false }
  | .enter =>
      let a := App.update_view_search_matches { a with view_search_mode := false }
      if !a.view_search_matches.isEmpty then
        { a with view_search_current := 0,
                 full_content_scroll := a.view_search_matches.getD 0 0 }
      else a
  | .backspace => { a with view_search_pattern := ⟨a.view_search_pattern.data.dropLast⟩ }
  | .char c => { a with view_search_pattern := ⟨a.view_search_pattern.data ++ [c]⟩ }
  | _ => a

/-- Full view with an active search pattern (lines 3322–3376). -/
def stepViewSearchActive (ev : KeyEvent) (a : App) : App :=
  match ev.code with
  | .char c =>
      if c = 'n' then a.view_search_next
      else if c = 'N' then a.view_search_prev
      else if c = '/' then { a with view_search_pattern := "", view_search_mode := true }
      else if c = ' ' ∨ c = 'q' then
        { a with view_search_pattern := "", view_search_matches := [],
                 view_search_mode := false, full_view_mode := false }
      else if c = 'k' then { a with full_content_scroll := a.full_content_scroll - 1 }
      else if c = 'j' then { a with full_content_scroll := satAdd a.full_content_scroll 1 }
      else if c = 'c' ∧ ev.ctrl then { a with should_quit := true }
      else a
  | .enter => a.view_search_next
  | .esc => { a with view_search_pattern := "", view_search_matches := [],
                     view_search_current := 0 }
  | .up => { a with full_content_scroll := a.full_content_scroll - 1 }
  | .down => { a with full_content_scroll := satAdd a.full_content_scroll 1 }
  | .pageUp => { a with full_content_scroll := a.full_content_scroll - 20 }
  | .pageDown => { a with full_content_scroll := satAdd a.full_content_scroll 20 }
  | .homeKey => { a with full_content_scroll := 0 }
  | .endKey => { a with full_content_scroll := (rustLines a.full_content).length - 20 }
  | _ => a

/-- Full view without a search pattern (lines 3377–3411). -/
def stepViewNormal (ev : KeyEvent) (a : App) : App :=
  match ev.code with
  | .char c =>
      if c = '/' then { a with view_search_mode := true, view_search_pattern := "" }
      else if c = ' ' ∨ c = 'q' then { a with full_view_mode := false }
      else if c = 'k' then { a with full_content_scroll := a.full_content_scroll - 1 }
      else if c = 'j' then { a with full_content_scroll := satAdd a.full_content_scroll 1 }
      else if c = 'c' ∧ ev.ctrl then { a with should_quit := true }
      else a
  | .esc => { a with full_view_mode := false }
  | .up => { a with full_content_scroll := a.full_content_scroll - 1 }
  | .down => { a with full_content_scroll := satAdd a.full_content_scroll 1 }
  | .pageUp => { a with full_content_scroll := a.full_content_scroll - 20 }
  | .pageDown => { a with full_content_scroll := satAdd a.full_content_scroll 20 }
  | .homeKey => { a with full_content_scroll := 0 }
  | .endKey => { a with full_content_scroll := (rustLines a.full_content).length - 20 }
  | _ => a

def stepFullView (ev : KeyEvent) (a : App) : App :=
  if a.view_search_mode then stepViewSearchInput ev a
  else if !a.view_search_pattern.data.isEmpty then stepViewSearchActive ev a
  else stepViewNormal ev a

/-- Scope modal selections (lines 3431–3476). -/
def scopeChooseGlobal (env : Env) (a : App) : App :=
  { App.filter env { a with scope_global := true, filter_dir := none } with
    scope_modal_open := false }

def scopeChooseCurrent (env : Env) (a : App) : App :=
  { App.filter env { a with scope_global := false, filter_dir := none } with
    scope_modal_open := false }

def scopeChooseCustom (a : App) : App :=
  { a with scope_modal_open := false, input_mode := some .scopeDir,
           input_buffer := a.filter_dir.getD a.launch_cwd }

def scopeModalEnter (env : Env) (a : App) : App :=
  match a.scope_modal_selected with
  | 0 => scopeChooseGlobal env a
  | 1 => scopeChooseCurrent env a
  | 2 => scopeChooseCustom a
  | _ => a

/-- Scope modal (lines 3412–3478). -/
def stepScopeModal (env : Env) (ev : KeyEvent) (a : App) : App :=
  match ev.code with
  | .esc => { a with scope_modal_open := false }
  | .char c =>
      if c = '/' then { a with scope_modal_open := false }
      else if c = 'k' then
        if a.scope_modal_selected > 0 then
          { a with scope_modal_selected := a.scope_modal_selected - 1 }
        else a
      else if c = 'j' then
        if a.scope_modal_selected < 2 then
          { a with scope_modal_selected := a.scope_modal_selected + 1 }
        else a
      else if c = ' ' then scopeModalEnter env a
      else if c = '1' then scopeChooseGlobal env a
      else if c = '2' then scopeChooseCurrent env a
      else if c = '3' then scopeChooseCustom a
      else a
  | .up =>
      if a.scope_modal_selected > 0 then
        { a with scope_modal_selected := a.scope_modal_selected - 1 }
      else a
  | .down =>
      if a.scope_modal_selected < 2 then
        { a with scope_modal_selected := a.scope_modal_selected + 1 }
      else a
  | .enter => scopeModalEnter env a
  | _ => a

inductive FilterMenuItem where
  | clearAll
  | includeOriginal
  | includeSub
  | includeTrimmed
  | includeContinued
  | agentAll
  | agentClaude
  | agentCodex
  | minLines
  | afterDate
  | beforeDate
deriving DecidableEq, Repr

def FilterMenuItem.all : List FilterMenuItem :=
  [.clearAll, .includeOriginal, .includeSub, .includeTrimmed, .includeContinued,
   .agentAll, .agentClaude, .agentCodex, .minLines, .afterDate, .beforeDate]

def FilterMenuItem.shortcut : FilterMenuItem → Char
  | .clearAll => 'x'
  | .includeOriginal => 'o'
  | .includeSub => 's'
  | .includeTrimmed => 't'
  | .includeContinued => 'c'
  | .agentAll => 'a'
  | .agentClaude => 'd'
  | .agentCodex => 'e'
  | .minLines => 'l'
  | .afterDate => '>'
  | .beforeDate => '<'

/-- `apply_filter` closure of the filter modal (lines 3484–3540). -/
def applyFilterItem (env : Env) (item : FilterMenuItem) (a : App) : App :=
  match item with
  | .clearAll =>
      App.filter env
        { a with include_original := true, include_sub := false,
                 include_trimmed := true, include_continued := true,
                 filter_agent := none, filter_min_lines := none }
  | .includeOriginal => App.filter env { a with include_original := !a.include_original }
  | .includeSub => App.filter env { a with include_sub := !a.include_sub }
  | .includeTrimmed => App.filter env { a with include_trimmed := !a.include_trimmed }
  | .includeContinued => App.filter env { a with include_continued := !a.include_continued }
  | .agentAll => App.filter env { a with filter_agent := none }
  | .agentClaude => App.filter env { a with filter_agent := some "claude" }
  | .agentCodex => App.filter env { a with filter_agent := some "codex" }
  | .minLines =>
      { a with filter_modal_open := false, input_mode := some .minLines, input_buffer := "" }
  | .afterDate =>
      { a with filter_modal_open := false, input_mode := some .afterDate, input_buffer := "" }
  | .beforeDate =>
      { a with filter_modal_open := false, input_mode := some .beforeDate, input_buffer := "" }

/-- Filter modal (lines 3479–3570); the selected index stays within the
item list by construction. -/
def stepFilterModal (env : Env) (ev : KeyEvent) (a : App) : App :=
  match ev.code with
  | .esc => { a with filter_modal_open := false }
  | .char c =>
      if c = 'f' ∧ ev.ctrl then { a with filter_modal_open := false }
      else if c = 'k' then
        if a.filter_modal_selected > 0 then
          { a with filter_modal_selected := a.filter_modal_selected - 1 }
        else a
      else if c = 'j' then
        if a.filter_modal_selected < FilterMenuItem.all.length - 1 then
          { a with filter_modal_selected := a.filter_modal_selected + 1 }
        else a
      else if c = ' ' then
        applyFilterItem env (FilterMenuItem.all.getD a.filter_modal_selected .clearAll) a
      else
        match FilterMenuItem.all.find? (fun i => i.shortcut = c) with
        | some item => applyFilterItem env item a
        | none => a
  | .up =>
      if a.filter_modal_selected > 0 then
        { a with filter_modal_selected := a.filter_modal_selected - 1 }
      else a
  | .down =>
      if a.filter_modal_selected < FilterMenuItem.all.length - 1 then
        { a with filter_modal_selected := a.filter_modal_selected + 1 }
      else a
  | .enter =>
      applyFilterItem env (FilterMenuItem.all.getD a.filter_modal_selected .clearAll) a
  | _ => a

/-- Action modal (lines 3571–3605); `ActionMode::ViewOrActions` is its
only variant.  `env.loadContent` stands for the `fs::read_to_string`
plus `parse_jsonl_to_conversation` pipeline loading the transcript. -/
def stepActionMode (env : Env) (ev : KeyEvent) (a : App) : App :=
  match ev.code with
  | .esc => { a with action_mode := none }
  | .char c =>
      if c = 'v' then
        match a.selected_session with
        | some s =>
            { a with full_content := env.loadContent s.export_path,
                     full_content_scroll := 0, full_view_mode := true,
                     view_search_mode := false, view_search_pattern := "",
                     view_search_matches := [], view_search_current := 0,
                     action_mode := none }
        | none => { a with action_mode := none }
      else if c = 'a' then { a.on_enter with action_mode := none }
      else a
  | _ => a

/-- Input prompts (lines 3606–3702). -/
def stepInputMode (env : Env) (mode : InputMode) (ev : KeyEvent) (a : App) : App :=
  match ev.code with
  | .esc => { a with input_mode := none, input_buffer := "" }
  | .enter =>
      let a' :=
        match mode with
        | .minLines =>
            match parseI64 a.input_buffer with
            | some num =>
                App.filter env
                  { a with filter_min_lines := if num > 0 then some num else none }
            | none => a
        | .agent => a
        | .jumpToLine =>
            match parseUsize a.input_buffer with
            | some row => a.jump_to_row row
            | none => a
        | .afterDate =>
            if a.input_buffer.data.isEmpty then
              App.filter env
                { a with filter_after_date := none, filter_after_date_display := none }
            else
              match parse_flexible_date env.currentYear a.input_buffer with
              | some (cmp, disp) =>
                  App.filter env
                    { a with filter_after_date := some cmp,
                             filter_after_date_display := some disp }
              | none => App.filter env a
        | .beforeDate =>
            if a.input_buffer.data.isEmpty then
              App.filter env
                { a with filter_before_date := none, filter_before_date_display := none }
            else
              match parse_flexible_date env.currentYear a.input_buffer with
              | some (cmp, disp) =>
                  App.filter env
                    { a with filter_before_date := some cmp,
                             filter_before_date_display := some disp }
              | none => App.filter env a
        | .scopeDir =>
            if a.input_buffer.data.isEmpty then
              App.filter env { a with scope_global := true, filter_dir := none }
            else
              let path : String :=
                if a.input_buffer.data.head? = some '~' then
                  ⟨env.home.data ++ a.input_buffer.data.tail⟩
                else if a.input_buffer.data.head? = some '/' then a.input_buffer
                else ⟨a.launch_cwd.data ++ '/' :: a.input_buffer.data⟩
              App.filter env { a with filter_dir := some path, scope_global := false }
      { a' with input_mode := none, input_buffer := "" }
  | .char c =>
      if c = '1' ∧ mode = .agent then
        { App.filter env { a with filter_agent := some "claude" } with
          input_mode := none, input_buffer := "" }
      else if c = '2' ∧ mode = .agent then
        { App.filter env { a with filter_agent := some "codex" } with
          input_mode := none, input_buffer := "" }
      else if c = '0' ∧ mode = .agent then
        { App.filter env { a with filter_agent := none } with
          input_mode := none, input_buffer := "" }
      else if c.isDigit ∧ (mode = .minLines ∨ mode = .jumpToLine) then
        { a with input_buffer := ⟨a.input_buffer.data ++ [c]⟩ }
      else if mode = .afterDate ∨ mode = .beforeDate ∨ mode = .scopeDir then
        { a with input_buffer := ⟨a.input_buffer.data ++ [c]⟩ }
      else a
  | .backspace =>
      if mode = .minLines ∨ mode = .jumpToLine ∨ mode = .afterDate ∨
          mode = .beforeDate ∨ mode = .scopeDir then
        { a with input_buffer := ⟨a.input_buffer.data.dropLast⟩ }
      else a
  | _ => a

/-- Command mode (lines 3703–3759); the mode flag drops before dispatch. -/
def stepCommandMode (env : Env) (ev : KeyEvent) (a0 : App) : App :=
  let a := { a0 with command_mode := false }
  match ev.code with
  | .char c =>
      if c = 'x' ∨ c = '0' then
        App.filter env
          { a with include_original := true, include_sub := false,
                   include_trimmed := true, include_continued := true,
                   filter_agent := none, filter_min_lines := none,
                   filter_after_date := none, filter_after_date_display := none,
                   filter_before_date := none, filter_before_date_display := none }
      else if c = 'o' then App.filter env { a with include_original := !a.include_original }
      else if c = 's' then App.filter env { a with include_sub := !a.include_sub }
      else if c = 't' then App.filter env { a with include_trimmed := !a.include_trimmed }
      else if c = 'c' then App.filter env { a with include_continued := !a.include_continued }
      else if c = 'a' then { a with input_mode := some .agent, input_buffer := "" }
      else if c = 'm' then { a with input_mode := some .minLines, input_buffer := "" }
      else if c = '>' then { a with input_mode := some .afterDate, input_buffer := "" }
      else if c = '<' then { a with input_mode := some .beforeDate, input_buffer := "" }
      else a
  | _ => a

/-- Pending jump-digit buffer (lines 3760–3776). -/
def stepJumpInput (ev : KeyEvent) (a : App) : App :=
  match ev.code with
  | .enter => a.process_jump_enter
  | .esc => { a with jump_input := "" }
  | .char c =>
      if c.isDigit then { a with jump_input := ⟨a.jump_input.data ++ [c]⟩ } else a
  | .backspace => { a with jump_input := ⟨a.jump_input.data.dropLast⟩ }
  | _ => a

/-- Normal mode (lines 3777–3842). -/
def stepNormal (env : Env) (ev : KeyEvent) (a : App) : App :=
  match ev.code with
  | .char c =>
      if c = 'c' ∧ ev.ctrl then { a with should_quit := true }
      else if c = ':' then { a with command_mode := true }
      else if c = ' ' then App.on_char env ' ' a
      else if c = 'u' ∧ ev.ctrl then a.page_up 10
      else if c = 'd' ∧ ev.ctrl then a.page_down 10
      else if c = '/' then { a with scope_modal_open := true, scope_modal_selected := 0 }
      else if c = 'f' ∧ ev.ctrl then
        { a with filter_modal_open := true, filter_modal_selected := 0 }
      else if c = 'g' ∧ ev.ctrl then
        { a with input_mode := some .jumpToLine, input_buffer := "" }
      else if c = 's' ∧ ev.ctrl then App.filter env { a with sort_by_time := !a.sort_by_time }
      else App.on_char env c a
  | .esc => a.on_escape env
  | .enter =>
      if !a.jump_input.data.isEmpty then a.process_jump_enter
      else if a.selected_session.isSome then { a with action_mode := some .viewOrActions }
      else a
  | .up => a.on_up
  | .down => a.on_down
  | .pageUp => a.page_up 10
  | .pageDown => a.page_down 10
  | .homeKey => { a with selected := 0, preview_scroll := 0 }
  | .endKey =>
      if !a.filtered.isEmpty then
        { a with selected := a.filtered.length - 1, preview_scroll := 0 }
      else a
  | .backspace => a.on_backspace env
  | .other => a

/-- One key press routed through the dispatcher's if-else chain. -/
def stepKey (env : Env) (ev : KeyEvent) (a : App) : App :=
  if a.confirming_exit then stepConfirmExit ev a
  else if a.full_view_mode then stepFullView ev a
  else if a.scope_modal_open then stepScopeModal env ev a
  else if a.filter_modal_open then stepFilterModal env ev a
  else if a.action_mode.isSome then stepActionMode env ev a
  else if a.input_mode.isSome then stepInputMode env (a.input_mode.getD .minLines) ev a
  else if a.command_mode then stepCommandMode env ev a
  else if !a.jump_input.data.isEmpty then stepJumpInput ev a
  else stepNormal env ev a

/-! ### CLI options and startup (main.rs `CliOptions`, `App::new_with_options`) -/

structure CliOptions where
  output_file : Option String
  claude_home : Option String
  codex_home : Option String
  global_search : Bool
  filter_dir : Option String
  num_results : Option Nat
  include_original : Bool
  include_sub : Bool
  include_trimmed : Bool
  include_continued : Bool
  min_lines : Option Int
  after_date : Option String
  before_date : Option String
  agent_filter : Option String
  query : Option String
  json_output : Bool

/-- main.rs lines 3107–3109. -/
def CliOptions.any_type_flag_specified (c : CliOptions) : Bool :=
  c.include_original || c.include_sub || c.include_trimmed || c.include_continued

/-- main.rs `App::new_with_options` (lines 520–613): build the startup
state from the CLI options and run the first filter pass.  `launch_cwd`
stands for `std::env::current_dir()`. -/
def App.new_with_options (env : Env) (sessions : List Session) (index_path : String)
    (launch_cwd : String) (cli : CliOptions) : App :=
  let ad := cli.after_date.bind (parse_flexible_date env.currentYear)
  let bd := cli.before_date.bind (parse_flexible_date env.currentYear)
  App.filter env
    { sessions := sessions
      filtered := []
      query := cli.query.getD ""
      selected := 0
      list_scroll := 0
      preview_scroll := 0
      should_quit := false
      should_select := none
      total_sessions := sessions.length
      scope_global := if cli.filter_dir.isSome then false else cli.global_search
      launch_cwd := launch_cwd
      index_path := index_path
      search_snippets := []
      include_original := if cli.any_type_flag_specified then cli.include_original else true
      include_sub := cli.include_sub
      include_trimmed := if cli.any_type_flag_specified then cli.include_trimmed else true
      include_continued := if cli.any_type_flag_specified then cli.include_continued else true
      filter_agent := cli.agent_filter
      filter_min_lines := cli.min_lines
      filter_after_date := ad.map Prod.fst
      filter_after_date_display := ad.map Prod.snd
      filter_before_date := bd.map Prod.fst
      filter_before_date_display := bd.map Prod.snd
      filter_claude_home := cli.claude_home
      filter_codex_home := cli.codex_home
      command_mode := false
      full_view_mode := false
      full_content := ""
      full_content_scroll := 0
      view_search_mode := false
      view_search_pattern := ""
      view_search_matches := []
      view_search_current := 0
      jump_input := ""
      input_mode := none
      input_buffer := ""
      action_mode := none
      filter_modal_open := false
      filter_modal_selected := 0
      scope_modal_open := false
      scope_modal_selected := 0
      filter_dir := cli.filter_dir
      max_results := cli.num_results
      sort_by_time := false
      confirming_exit := false }

/-- The session-type taxonomy of the spec's data model: sub-agent
membership takes precedence, as in the filter's own branching. -/
inductive SessionType where
  | original
  | trimmed
  | continued
  | subAgent
deriving DecidableEq, Repr

def sessionTypeOf (s : Session) : SessionType :=
  if s.is_sidechain then .subAgent
  else if s.derivation_type = "trimmed" then .trimmed
  else if s.derivation_type = "continued" then .continued
  else .original

/-- Which session types the given CLI flags name. -/
def cliIncludes (c : CliOptions) : SessionType → Bool
  | .original => c.include_original
  | .trimmed => c.include_trimmed
  | .continued => c.include_continued
  | .subAgent => c.include_sub

/-! ### JSON emissions (main.rs `output_json` and the end of `main`) -/

inductive JsonVal where
  | str (s : String)
  | int (n : Int)
  | bool (b : Bool)
  | null
deriving DecidableEq, Repr

/-- The serde serialization of `Session` (derive on lines 90–109): all
struct fields in declaration order, `export_path` renamed `file_path`.
This is the object `main` writes for a confirmed selection (lines
3853–3860). -/
def sessionToJson (s : Session) : List (String × JsonVal) :=
  [("session_id", .str s.session_id),
   ("agent", .str s.agent),
   ("project", .str s.project),
   ("branch", .str s.branch),
   ("cwd", .str s.cwd),
   ("created", .str s.created),
   ("modified", .str s.modified),
   ("lines", .int s.lines),
   ("file_path", .str s.export_path),
   ("first_msg_role", .str s.first_msg_role),
   ("first_msg_content", .str s.first_msg_content),
   ("last_msg_role", .str s.last_msg_role),
   ("last_msg_content", .str s.last_msg_content),
   ("derivation_type", .str s.derivation_type),
   ("is_sidechain", .bool s.is_sidechain),
   ("claude_home", .str s.claude_home)]

/-- One `--json`-mode row, the `json!` object of `output_json`
(lines 3061–3076). -/
def outputJsonRow (snippets : List (String × String)) (s : Session) :
    List (String × JsonVal) :=
  [("session_id", .str s.session_id),
   ("agent", .str s.agent),
   ("project", .str s.project),
   ("branch", .str s.branch),
   ("cwd", .str s.cwd),
   ("lines", .int s.lines),
   ("created", .str s.created),
   ("modified", .str s.modified),
   ("first_msg", .str s.first_msg_content),
   ("last_msg", .str s.last_msg_content),
   ("file_path", .str s.export_path),
   ("derivation_type", .str s.derivation_type),
   ("is_sidechain", .bool s.is_sidechain),
   ("snippet",
     match assocFind snippets s.session_id with
     | some v => .str (strip_html_tags v)
     | none => .null)]

/-- main.rs `output_json` (lines 3055–3080). -/
def output_json (a : App) (limit : Option Nat) : List (List (String × JsonVal)) :=
  (a.filtered.take (limit.getD usizeMax)).map
    (fun i => outputJsonRow a.search_snippets (a.sessions.getD i defaultSession))

/-- The selection handoff at the end of `main` (lines 3853–3860): the
serde serialization of the selected session, if any. -/
def selectionHandoff (a : App) : Option (List (String × JsonVal)) :=
  a.should_select.map sessionToJson

/-! ### Concrete fixtures for witnesses and counterexamples -/

/-- An environment with an empty index, an empty file system, empty
`HOME` and a fixed current year. -/
def trivialEnv : Env :=
  { search := fun _ _ _ _ => ([], [])
    loadContent := fun _ => ""
    home := ""
    currentYear := 2025 }

/-- The startup defaults of `App::new` (main.rs lines 450–515), with no
sessions. -/
def defaultApp : App :=
  { sessions := []
    filtered := []
    query := ""
    selected := 0
    list_scroll := 0
    preview_scroll := 0
    should_quit := false
    should_select := none
    total_sessions := 0
    scope_global := false
    launch_cwd := ""
    index_path := ""
    search_snippets := []
    include_original := true
    include_sub := false
    include_trimmed := true
    include_continued := true
    filter_agent := none
    filter_min_lines := none
    filter_after_date := none
    filter_after_date_display := none
    filter_before_date := none
    filter_before_date_display := none
    filter_claude_home := none
    filter_codex_home := none
    command_mode := false
    full_view_mode := false
    full_content := ""
    full_content_scroll := 0
    view_search_mode := false
    view_search_pattern := ""
    view_search_matches := []
    view_search_current := 0
    jump_input := ""
    input_mode := none
    input_buffer := ""
    action_mode := none
    filter_modal_open := false
    filter_modal_selected := 0
    scope_modal_open := false
    scope_modal_selected := 0
    filter_dir := none
    max_results := none
    sort_by_time := false
    confirming_exit := false }

/-- Scenario S5's three sessions. -/
def sessionAtProj : Session := { defaultSession with cwd := "/home/u/proj" }

def sessionAtProjSub : Session := { defaultSession with cwd := "/home/u/proj/sub" }

def sessionAtOther : Session := { defaultSession with cwd := "/home/u/other" }

/-- Default local scope launched from `/home/u/proj`. -/
def localScopeApp : App := { defaultApp with launch_cwd := "/home/u/proj" }

/-- The same launch directory with a `--dir /home/u/proj` override. -/
def dirScopeApp : App :=
  { defaultApp with launch_cwd := "/home/u/proj", filter_dir := some "/home/u/proj" }

/-- Two filtered rows, first selected — the jump-prompt fixture. -/
def jumpApp : App :=
  { defaultApp with sessions := [defaultSession, defaultSession],
                    filtered := [0, 1], selected := 0 }

/-- A session whose `modified` value does not normalize to a date, and an
app with both date bounds active. -/
def unparseableDateSession : Session := { defaultSession with modified := "garbage" }

def dateBoundsApp : App :=
  { defaultApp with filter_after_date := some "20250101",
                    filter_before_date := some "20251231" }

/-- Two sessions sharing one `modified` timestamp, global scope. -/
def equalModifiedApp : App :=
  { defaultApp with
    scope_global := true
    sessions :=
      [{ defaultSession with session_id := "a", modified := "2025-01-01T00:00:00Z" },
       { defaultSession with session_id := "b", modified := "2025-01-01T00:00:00Z" }] }

/-- Two sessions with distinct `modified` timestamps, global scope. -/
def distinctModifiedApp : App :=
  { defaultApp with
    scope_global := true
    sessions :=
      [{ defaultSession with session_id := "a", modified := "2025-01-01T00:00:00Z" },
       { defaultSession with session_id := "b", modified := "2025-06-01T00:00:00Z" }] }

/-- Full view showing three content lines, scrolled to the clamp maximum. -/
def fullViewBottomApp : App :=
  { defaultApp with full_view_mode := true, full_content := "l1\nl2\nl3",
                    full_content_scroll := 2 }

/-- A small conjunction-of-filters fixture: local scope with one matching
and one non-matching session. -/
def conjunctionApp : App :=
  { defaultApp with
    launch_cwd := "/home/u/proj"
    filter_min_lines := some 10
    sessions :=
      [{ defaultSession with session_id := "a", cwd := "/home/u/proj", lines := 20,
                             modified := "2025-01-01T00:00:00Z" },
       { defaultSession with session_id := "b", cwd := "/home/u/proj", lines := 5,
                             modified := "2025-01-02T00:00:00Z" },
       { defaultSession with session_id := "c", cwd := "/home/x", lines := 20,
                             modified := "2025-01-03T00:00:00Z" }] }

/-- CLI options with every flag off, as `parse_cli_args` yields them when
only `--sub-agent` is passed. -/
def subAgentOnlyCli : CliOptions :=
  { output_file := none, claude_home := none, codex_home := none,
    global_search := true, filter_dir := none, num_results := none,
    include_original := false, include_sub := true, include_trimmed := false,
    include_continued := false, min_lines := none, after_date := none,
    before_date := none, agent_filter := none, query := none, json_output := false }

/-- The fields §6 of the specification names for the handoff object. -/
def claimedHandoffFields : List String :=
  ["session_id", "agent", "project", "branch", "cwd", "lines", "created", "modified",
   "first_msg", "last_msg", "file_path", "derivation_type", "is_sidechain", "snippet"]

/-! ## Theorems for the claims -/

/-- **C9.** A session whose `cwd` is empty passes the scope filter under a
custom dir override, under local scope and under global scope alike. -/
theorem scope_filter_retains_empty_cwd (a : App) (s : Session) (h : s.cwd = "") :
    scopePasses a s = true := by
  unfold scopePasses
  cases hd : a.filter_dir <;> simp [h]

theorem scope_filter_retains_empty_cwd_witness :
    ({ defaultSession with cwd := "" } : Session).cwd = "" ∧
      scopePasses dirScopeApp { defaultSession with cwd := "" } = true :=
  ⟨rfl, scope_filter_retains_empty_cwd dirScopeApp { defaultSession with cwd := "" } rfl⟩

/-- **C10.** When `extract_date_for_comparison` cannot normalize the
`modified` timestamp, both date filters are skipped, so the session
passes any active date range. -/
theorem date_filters_skip_unparseable_modified (a : App) (s : Session)
    (h : extract_date_for_comparison s.modified = none) :
    afterPasses a s = true ∧ beforePasses a s = true := by
  cases ha : a.filter_after_date <;> cases hb : a.filter_before_date <;>
    simp [afterPasses, beforePasses, ha, hb, h]

theorem date_filters_skip_unparseable_modified_witness :
    extract_date_for_comparison unparseableDateSession.modified = none ∧
      (afterPasses dateBoundsApp unparseableDateSession = true ∧
        beforePasses dateBoundsApp unparseableDateSession = true) :=
  ⟨by decide,
   date_filters_skip_unparseable_modified dateBoundsApp unparseableDateSession (by decide)⟩

/-- **C5 counterexample.** Under default local scope launched from
`/home/u/proj`, the session with `cwd = /home/u/proj/sub` is *not*
retained: local scope matches the launch directory exactly. -/
theorem local_scope_excludes_subdirectory :
    scopePasses localScopeApp sessionAtProjSub = false := by decide

/-- **C5 amended.** Local scope retains exactly the session whose `cwd`
equals the launch directory; subdirectory matching applies only under a
`--dir` override, which does retain `/home/u/proj/sub`. -/
theorem local_scope_exact_match_only :
    scopePasses localScopeApp sessionAtProj = true ∧
      scopePasses localScopeApp sessionAtProjSub = false ∧
      scopePasses localScopeApp sessionAtOther = false ∧
      scopePasses dirScopeApp sessionAtProjSub = true := by decide

/-- **C6 counterexample.** The confirmed-selection handoff is the serde
serialization of `Session`: it has no `snippet` field and its field list
is not the one the specification claims. -/
theorem selection_handoff_fields_differ_from_claim :
    ((sessionToJson defaultSession).map Prod.fst).contains "snippet" = false ∧
      (sessionToJson defaultSession).map Prod.fst ≠ claimedHandoffFields := by decide

/-- **C6 amended.** The confirmed-selection handoff serializes the whole
`Session` record (16 fields, `export_path` renamed `file_path`, no
`snippet`); the claimed 14-field object with a tag-stripped `snippet` is
what `--json` mode emits per filtered row in `output_json`. -/
theorem handoff_field_sets (s : Session) (snippets : List (String × String)) :
    (sessionToJson s).map Prod.fst =
      ["session_id", "agent", "project", "branch", "cwd", "created", "modified",
       "lines", "file_path", "first_msg_role", "first_msg_content", "last_msg_role",
       "last_msg_content", "derivation_type", "is_sidechain", "claude_home"] ∧
      (outputJsonRow snippets s).map Prod.fst = claimedHandoffFields ∧
      assocFind (outputJsonRow snippets s) "snippet" =
        some (match assocFind snippets s.session_id with
              | some v => JsonVal.str (strip_html_tags v)
              | none => JsonVal.null) := by
  refine ⟨rfl, rfl, ?_⟩
  simp [outputJsonRow, assocFind]

/-- **C7.** `parse_flexible_date` maps `"11/29/25"` and `"2025-11-29"`
to the same canonical comparison string `"20251129"` for every current
year: the `%m/%d/%y` format is tried before `%m/%d/%Y` (which would read
the year as 25), and the `%Y/%m/%d` reading (year 11) is rejected. -/
theorem parse_flexible_date_canonical_agreement (currentYear : Nat) :
    parse_flexible_date currentYear "11/29/25" = some ("20251129", "11/29/25") ∧
      parse_flexible_date currentYear "2025-11-29" = some ("20251129", "11/29/25") ∧
      runFmt [.nm, .lit '/', .nd, .lit '/', .y4] "11/29/25".data none none none =
        some (25, 11, 29) ∧
      runFmt [.y4, .lit '/', .nm, .lit '/', .nd] "11/29/25".data none none none = none :=
  ⟨rfl, rfl, by decide, by decide⟩

/-- **C8 counterexample.** With two filtered rows, confirming `5` in the
jump prompt leaves the selection at row 1 (index 0) instead of clamping
to the last row. -/
theorem jump_out_of_range_is_ignored_not_clamped :
    (jumpApp.jump_to_row 5).selected = 0 ∧ jumpApp.filtered.length = 2 ∧
      (jumpApp.jump_to_row 5).selected ≠ jumpApp.filtered.length - 1 := by decide

/-- **C8 amended.** A confirmed jump number selects that 1-indexed row
only when it already lies in `[1, len(filtered)]`; any other number is
ignored, leaving selection and preview scroll unchanged.  The jump
buffer is cleared either way. -/
theorem jump_to_row_in_range_or_ignored (a : App) (row : Nat) :
    ((1 ≤ row ∧ row ≤ a.filtered.length) →
      (a.jump_to_row row).selected = row - 1 ∧ (a.jump_to_row row).preview_scroll = 0) ∧
    (¬(1 ≤ row ∧ row ≤ a.filtered.length) →
      (a.jump_to_row row).selected = a.selected ∧
        (a.jump_to_row row).preview_scroll = a.preview_scroll) ∧
    (a.jump_to_row row).jump_input = "" := by
  unfold App.jump_to_row
  by_cases h : 0 < row ∧ row ≤ a.filtered.length
  · simp [h]
    intro h0
    exact absurd h0 (by omega)
  · simp [h]
    intro h1 h2
    exact absurd ⟨h1, h2⟩ h

theorem jump_to_row_in_range_or_ignored_witness :
    (1 ≤ 2 ∧ 2 ≤ jumpApp.filtered.length) ∧ (jumpApp.jump_to_row 2).selected = 1 :=
  ⟨⟨by decide, by decide⟩,
   ((jump_to_row_in_range_or_ignored jumpApp 2).1 ⟨by decide, by decide⟩).1⟩

/-! ### Membership and order facts about the filter pipeline -/

theorem mem_truncateResults {a : App} {l : List Nat} {i : Nat}
    (h : i ∈ truncateResults a l) : i ∈ l := by
  unfold truncateResults at h
  split at h
  · exact List.take_subset _ _ h
  · exact h

theorem truncateResults_none {a : App} (hm : a.max_results = none) (l : List Nat) :
    truncateResults a l = l := by
  unfold truncateResults
  rw [hm]

theorem mem_baseFiltered {a : App} {i : Nat} :
    i ∈ baseFiltered a ↔
      i < a.sessions.length ∧ sessionPasses a (a.sessions.getD i defaultSession) = true := by
  unfold baseFiltered
  simp [List.mem_filter, List.mem_range]

theorem mem_sortKept {env : Env} {a : App} {kept : List Nat} {i : Nat}
    (h : i ∈ sortKept env a kept) : i ∈ kept := by
  unfold sortKept at h
  split at h
  · exact (List.perm_insertionSort _ _).mem_iff.mp h
  · exact (List.perm_insertionSort _ _).mem_iff.mp h

/-- Any member of the recomputed `filtered` list indexes a session that
passes every filter predicate. -/
theorem mem_filtered_passes (env : Env) (a : App) (i : Nat)
    (h : i ∈ (App.filter env a).filtered) :
    i < a.sessions.length ∧ sessionPasses a (a.sessions.getD i defaultSession) = true := by
  have h' : i ∈ (filterCore env a).1 := h
  refine mem_baseFiltered.mp ?_
  unfold filterCore at h'
  split at h'
  · exact (List.perm_insertionSort _ _).mem_iff.mp
      (mem_truncateResults (a := a) h')
  · split at h'
    · simp at h'
    · have h2 := mem_sortKept (mem_truncateResults (a := a) h')
      exact (List.mem_filter.mp h2).1

/-- **C1.** With an empty (all-whitespace) query and no `--num-results`
cap, a session index is in `filtered` after `App::filter` iff the session
satisfies the conjunction of the home, scope, type-inclusion, agent,
min-lines and date-range predicates. -/
theorem filter_membership_iff_conjunction (env : Env) (a : App) (i : Nat)
    (hq : trimChars a.query.data = []) (hm : a.max_results = none) :
    i ∈ (App.filter env a).filtered ↔
      i < a.sessions.length ∧
      homePasses a (a.sessions.getD i defaultSession) = true ∧
      scopePasses a (a.sessions.getD i defaultSession) = true ∧
      typePasses a (a.sessions.getD i defaultSession) = true ∧
      agentPasses a (a.sessions.getD i defaultSession) = true ∧
      minLinesPasses a (a.sessions.getD i defaultSession) = true ∧
      afterPasses a (a.sessions.getD i defaultSession) = true ∧
      beforePasses a (a.sessions.getD i defaultSession) = true := by
  constructor
  · intro h
    obtain ⟨hlt, hp⟩ := mem_filtered_passes env a i h
    unfold sessionPasses at hp
    simp only [Bool.and_eq_true] at hp
    exact ⟨hlt, hp.1.1.1.1.1.1, hp.1.1.1.1.1.2, hp.1.1.1.1.2, hp.1.1.1.2,
      hp.1.1.2, hp.1.2, hp.2⟩
  · rintro ⟨hlt, h1, h2, h3, h4, h5, h6, h7⟩
    show i ∈ (filterCore env a).1
    unfold filterCore
    rw [if_pos (by simp [hq])]
    show i ∈ truncateResults a (List.insertionSort (modDescRel a) (baseFiltered a))
    rw [truncateResults_none hm]
    rw [(List.perm_insertionSort _ _).mem_iff]
    refine mem_baseFiltered.mpr ⟨hlt, ?_⟩
    unfold sessionPasses
    simp only [Bool.and_eq_true]
    exact ⟨⟨⟨⟨⟨⟨h1, h2⟩, h3⟩, h4⟩, h5⟩, h6⟩, h7⟩

theorem filter_membership_iff_conjunction_witness :
    trimChars (conjunctionApp.query.data) = [] ∧ conjunctionApp.max_results = none ∧
      (0 ∈ (App.filter trivialEnv conjunctionApp).filtered ↔
        0 < conjunctionApp.sessions.length ∧
        homePasses conjunctionApp (conjunctionApp.sessions.getD 0 defaultSession) = true ∧
        scopePasses conjunctionApp (conjunctionApp.sessions.getD 0 defaultSession) = true ∧
        typePasses conjunctionApp (conjunctionApp.sessions.getD 0 defaultSession) = true ∧
        agentPasses conjunctionApp (conjunctionApp.sessions.getD 0 defaultSession) = true ∧
        minLinesPasses conjunctionApp (conjunctionApp.sessions.getD 0 defaultSession) = true ∧
        afterPasses conjunctionApp (conjunctionApp.sessions.getD 0 defaultSession) = true ∧
        beforePasses conjunctionApp (conjunctionApp.sessions.getD 0 defaultSession) = true) :=
  ⟨rfl, rfl, filter_membership_iff_conjunction trivialEnv conjunctionApp 0 rfl rfl⟩

/-- **C4 amended.** With an empty (all-whitespace) query, `filtered` is
in weakly descending `modified` order: for adjacent entries `i` before
`j`, `modified j ≤ modified i` (`modDescRel`).  Strict descent fails when
two sessions share a timestamp. -/
theorem filtered_weakly_descending_when_query_empty (env : Env) (a : App)
    (hq : trimChars a.query.data = []) :
    List.Chain' (modDescRel a) (App.filter env a).filtered := by
  have heq : (App.filter env a).filtered =
      truncateResults a (List.insertionSort (modDescRel a) (baseFiltered a)) := by
    show (filterCore env a).1 = _
    unfold filterCore
    rw [if_pos (by simp [hq])]
  rw [heq]
  have hs : List.Pairwise (modDescRel a)
      (List.insertionSort (modDescRel a) (baseFiltered a)) :=
    List.sorted_insertionSort (modDescRel a) (baseFiltered a)
  have hp : List.Pairwise (modDescRel a)
      (truncateResults a (List.insertionSort (modDescRel a) (baseFiltered a))) := by
    unfold truncateResults
    split
    · exact List.Pairwise.sublist (List.take_sublist _ _) hs
    · exact hs
  exact hp.chain'

theorem filtered_weakly_descending_when_query_empty_witness :
    trimChars (distinctModifiedApp.query.data) = [] ∧
      List.Chain' (modDescRel distinctModifiedApp)
        (App.filter trivialEnv distinctModifiedApp).filtered :=
  ⟨rfl, filtered_weakly_descending_when_query_empty trivialEnv distinctModifiedApp rfl⟩

/-- **C4 counterexample.** Two sessions with the same `modified`
timestamp: the empty-query run yields `filtered = [0, 1]`, whose adjacent
pair is *not* strictly descending, refuting the strict ordering claim. -/
theorem equal_modified_refutes_strict_descent :
    ¬ List.Chain'
        (fun i j => listLt (modifiedOf equalModifiedApp j).data
          (modifiedOf equalModifiedApp i).data = true)
        (App.filter trivialEnv equalModifiedApp).filtered := by
  intro hch
  rw [show (App.filter trivialEnv equalModifiedApp).filtered = [0, 1] by decide] at hch
  exact absurd (List.chain'_cons.mp hch).1 (by decide)

/-- **C3.** Starting from the CLI flags: when at least one type flag is
given, the type-inclusion filter admits exactly the session types named
by the given flags; when none is given, original, trimmed and continued
sessions are admitted and sub-agents are excluded.  Consequently, for
`--sub-agent` alone, every `filtered` entry of the start-up state is a
sub-agent session (given the data model's derivation-type domain). -/
theorem cli_type_flags_select_exactly (env : Env) (sessions : List Session)
    (index_path launch_cwd : String) (cli : CliOptions) (s : Session)
    (hd : s.derivation_type = "" ∨ s.derivation_type = "trimmed" ∨
      s.derivation_type = "continued") :
    (typePasses (App.new_with_options env sessions index_path launch_cwd cli) s =
      if cli.any_type_flag_specified then cliIncludes cli (sessionTypeOf s)
      else decide (sessionTypeOf s ≠ SessionType.subAgent)) ∧
    (cli.include_original = false → cli.include_trimmed = false →
      cli.include_continued = false → cli.include_sub = true →
      (∀ s' ∈ sessions, s'.derivation_type = "" ∨ s'.derivation_type = "trimmed" ∨
        s'.derivation_type = "continued") →
      ∀ i ∈ (App.new_with_options env sessions index_path launch_cwd cli).filtered,
        (sessions.getD i defaultSession).is_sidechain = true) := by
  constructor
  · rcases hd with hd | hd | hd <;> cases hsc : s.is_sidechain <;>
      cases hany : cli.any_type_flag_specified <;>
        simp_all [App.new_with_options, App.filter, typePasses, sessionTypeOf,
          cliIncludes, CliOptions.any_type_flag_specified]
  · intro h1 h2 h3 h4 hall i hi
    obtain ⟨hlt, hp⟩ := mem_filtered_passes env _ i hi
    unfold sessionPasses at hp
    simp only [Bool.and_eq_true] at hp
    have hty := hp.1.1.1.1.2
    have hmem : sessions.getD i defaultSession ∈ sessions := by
      rw [List.getD_eq_getElem sessions defaultSession hlt]
      exact List.getElem_mem hlt
    by_contra hside
    rw [Bool.not_eq_true] at hside
    rcases hall _ hmem with hd' | hd' | hd' <;>
      simp_all [typePasses, App.new_with_options, App.filter,
        CliOptions.any_type_flag_specified]

theorem cli_type_flags_select_exactly_witness :
    (({ defaultSession with is_sidechain := true } : Session).derivation_type = "" ∨
      ({ defaultSession with is_sidechain := true } : Session).derivation_type = "trimmed" ∨
      ({ defaultSession with is_sidechain := true } : Session).derivation_type = "continued") ∧
    typePasses (App.new_with_options trivialEnv [] "" "" subAgentOnlyCli)
        { defaultSession with is_sidechain := true } =
      if subAgentOnlyCli.any_type_flag_specified then
        cliIncludes subAgentOnlyCli (sessionTypeOf { defaultSession with is_sidechain := true })
      else decide (sessionTypeOf { defaultSession with is_sidechain := true } ≠
        SessionType.subAgent) :=
  ⟨Or.inl rfl,
   (cli_type_flags_select_exactly trivialEnv [] "" "" subAgentOnlyCli
     { defaultSession with is_sidechain := true } (Or.inl rfl)).1⟩

/-! ### The selection bound across key events (claim C2)

`selected ≤ |filtered| − 1` in truncated `Nat` subtraction is exactly
`selected ∈ [0, max(0, |filtered| − 1)]`. -/

def selectedInBounds (a : App) : Prop :=
  a.selected ≤ a.filtered.length - 1

theorem selInv_filter (env : Env) (a : App) : selectedInBounds (App.filter env a) :=
  Nat.zero_le _

theorem selInv_on_up {a : App} (h : selectedInBounds a) : selectedInBounds a.on_up := by
  unfold App.on_up
  split
  · exact Nat.le_trans (Nat.sub_le _ _) h
  · exact h

theorem selInv_on_down {a : App} (h : selectedInBounds a) : selectedInBounds a.on_down := by
  unfold App.on_down
  split
  · exact Nat.min_le_right _ _
  · exact h

theorem selInv_page_up {a : App} (h : selectedInBounds a) (n : Nat) :
    selectedInBounds (a.page_up n) := by
  unfold App.page_up
  split
  · exact Nat.le_trans (Nat.sub_le _ _) h
  · exact h

theorem selInv_page_down {a : App} (h : selectedInBounds a) (n : Nat) :
    selectedInBounds (a.page_down n) := by
  unfold App.page_down
  split
  · exact Nat.min_le_right _ _
  · exact h

theorem selInv_on_enter {a : App} (h : selectedInBounds a) : selectedInBounds a.on_enter := by
  unfold App.on_enter
  split <;> exact h

theorem selInv_jump_to_row {a : App} (h : selectedInBounds a) (row : Nat) :
    selectedInBounds (a.jump_to_row row) := by
  unfold App.jump_to_row
  dsimp only
  split
  · rename_i hr
    show row - 1 ≤ a.filtered.length - 1
    omega
  · exact h

theorem selInv_process_jump_enter {a : App} (h : selectedInBounds a) :
    selectedInBounds a.process_jump_enter := by
  unfold App.process_jump_enter
  dsimp only
  split
  · exact selInv_jump_to_row h _
  · exact h

theorem selInv_on_escape (env : Env) {a : App} (h : selectedInBounds a) :
    selectedInBounds (a.on_escape env) := by
  unfold App.on_escape
  repeat' split
  · exact h
  · exact h
  · exact selInv_filter env _

theorem selInv_stepConfirmExit (ev : KeyEvent) {a : App} (h : selectedInBounds a) :
    selectedInBounds (stepConfirmExit ev a) := by
  unfold stepConfirmExit
  cases hc : ev.code <;> (try exact h) <;> (repeat' split) <;> exact h

theorem selInv_stepViewSearchInput (ev : KeyEvent) {a : App} (h : selectedInBounds a) :
    selectedInBounds (stepViewSearchInput ev a) := by
  unfold stepViewSearchInput App.update_view_search_matches
  cases hc : ev.code <;> dsimp only <;> (repeat' split) <;> exact h

theorem selInv_stepViewSearchActive (ev : KeyEvent) {a : App} (h : selectedInBounds a) :
    selectedInBounds (stepViewSearchActive ev a) := by
  unfold stepViewSearchActive App.view_search_next App.view_search_prev
  cases hc : ev.code <;> dsimp only <;> (repeat' split) <;> exact h

theorem selInv_stepViewNormal (ev : KeyEvent) {a : App} (h : selectedInBounds a) :
    selectedInBounds (stepViewNormal ev a) := by
  unfold stepViewNormal
  cases hc : ev.code <;> dsimp only <;> (repeat' split) <;> exact h

theorem selInv_stepFullView (ev : KeyEvent) {a : App} (h : selectedInBounds a) :
    selectedInBounds (stepFullView ev a) := by
  unfold stepFullView
  split
  · exact selInv_stepViewSearchInput ev h
  · split
    · exact selInv_stepViewSearchActive ev h
    · exact selInv_stepViewNormal ev h

theorem selInv_scopeModalEnter (env : Env) {a : App} (h : selectedInBounds a) :
    selectedInBounds (scopeModalEnter env a) := by
  unfold scopeModalEnter scopeChooseGlobal scopeChooseCurrent scopeChooseCustom
  repeat' split <;> first
    | exact Nat.zero_le _
    | exact h

theorem selInv_stepScopeModal (env : Env) (ev : KeyEvent) {a : App}
    (h : selectedInBounds a) : selectedInBounds (stepScopeModal env ev a) := by
  unfold stepScopeModal
  cases hc : ev.code <;> dsimp only <;> (repeat' split) <;> first
    | exact Nat.zero_le _
    | exact selInv_scopeModalEnter env h
    | exact h

theorem selInv_applyFilterItem (env : Env) (item : FilterMenuItem) {a : App}
    (h : selectedInBounds a) : selectedInBounds (applyFilterItem env item a) := by
  unfold applyFilterItem
  cases item <;> first
    | exact Nat.zero_le _
    | exact h

theorem selInv_stepFilterModal (env : Env) (ev : KeyEvent) {a : App}
    (h : selectedInBounds a) : selectedInBounds (stepFilterModal env ev a) := by
  unfold stepFilterModal
  cases hc : ev.code <;> dsimp only <;> (repeat' split) <;> first
    | exact selInv_applyFilterItem env _ h
    | exact h

theorem selInv_stepActionMode (env : Env) (ev : KeyEvent) {a : App}
    (h : selectedInBounds a) : selectedInBounds (stepActionMode env ev a) := by
  unfold stepActionMode
  cases hc : ev.code <;> dsimp only <;> (repeat' split) <;> first
    | exact selInv_on_enter h
    | exact h

theorem selInv_stepInputMode (env : Env) (mode : InputMode) (ev : KeyEvent) {a : App}
    (h : selectedInBounds a) : selectedInBounds (stepInputMode env mode ev a) := by
  unfold stepInputMode
  cases hc : ev.code <;> dsimp only <;> (repeat' split) <;> first
    | exact Nat.zero_le _
    | exact selInv_jump_to_row h _
    | exact h

theorem selInv_stepCommandMode (env : Env) (ev : KeyEvent) {a : App}
    (h : selectedInBounds a) : selectedInBounds (stepCommandMode env ev a) := by
  unfold stepCommandMode
  cases hc : ev.code
  case char c =>
    dsimp only
    by_cases h1 : c = 'x' ∨ c = '0'
    · rw [if_pos h1]
      exact Nat.zero_le _
    rw [if_neg h1]
    by_cases h2 : c = 'o'
    · rw [if_pos h2]
      exact Nat.zero_le _
    rw [if_neg h2]
    by_cases h3 : c = 's'
    · rw [if_pos h3]
      exact Nat.zero_le _
    rw [if_neg h3]
    by_cases h4 : c = 't'
    · rw [if_pos h4]
      exact Nat.zero_le _
    rw [if_neg h4]
    by_cases h5 : c = 'c'
    · rw [if_pos h5]
      exact Nat.zero_le _
    rw [if_neg h5]
    by_cases h6 : c = 'a'
    · rw [if_pos h6]
      exact h
    rw [if_neg h6]
    by_cases h7 : c = 'm'
    · rw [if_pos h7]
      exact h
    rw [if_neg h7]
    by_cases h8 : c = '>'
    · rw [if_pos h8]
      exact h
    rw [if_neg h8]
    by_cases h9 : c = '<'
    · rw [if_pos h9]
      exact h
    rw [if_neg h9]
    exact h
  all_goals exact h

theorem selInv_stepJumpInput (ev : KeyEvent) {a : App} (h : selectedInBounds a) :
    selectedInBounds (stepJumpInput ev a) := by
  unfold stepJumpInput
  cases hc : ev.code <;> dsimp only <;> (repeat' split) <;> first
    | exact selInv_process_jump_enter h
    | exact h

theorem selInv_stepNormal (env : Env) (ev : KeyEvent) {a : App}
    (h : selectedInBounds a) : selectedInBounds (stepNormal env ev a) := by
  unfold stepNormal
  cases hc : ev.code
  case char c =>
    dsimp only
    by_cases h1 : c = 'c' ∧ ev.ctrl = true
    · rw [if_pos h1]
      exact h
    rw [if_neg h1]
    by_cases h2 : c = ':'
    · rw [if_pos h2]
      exact h
    rw [if_neg h2]
    by_cases h3 : c = ' '
    · rw [if_pos h3]
      exact selInv_filter env _
    rw [if_neg h3]
    by_cases h4 : c = 'u' ∧ ev.ctrl = true
    · rw [if_pos h4]
      exact selInv_page_up h 10
    rw [if_neg h4]
    by_cases h5 : c = 'd' ∧ ev.ctrl = true
    · rw [if_pos h5]
      exact selInv_page_down h 10
    rw [if_neg h5]
    by_cases h6 : c = '/'
    · rw [if_pos h6]
      exact h
    rw [if_neg h6]
    by_cases h7 : c = 'f' ∧ ev.ctrl = true
    · rw [if_pos h7]
      exact h
    rw [if_neg h7]
    by_cases h8 : c = 'g' ∧ ev.ctrl = true
    · rw [if_pos h8]
      exact h
    rw [if_neg h8]
    by_cases h9 : c = 's' ∧ ev.ctrl = true
    · rw [if_pos h9]
      exact Nat.zero_le _
    rw [if_neg h9]
    exact selInv_filter env _
  case enter =>
    dsimp only
    by_cases h1 : a.jump_input.data.isEmpty = false
    · rw [if_pos (by simpa using h1)]
      exact selInv_process_jump_enter h
    · rw [if_neg (by simpa using h1)]
      split
      · exact h
      · exact h
  case esc => exact selInv_on_escape env h
  case up => exact selInv_on_up h
  case down => exact selInv_on_down h
  case pageUp => exact selInv_page_up h 10
  case pageDown => exact selInv_page_down h 10
  case homeKey => exact Nat.zero_le _
  case endKey =>
    dsimp only
    split
    · exact Nat.le_refl _
    · exact h
  case backspace => exact selInv_filter env _
  case other => exact h

theorem clampFullScroll_le (b : App) :
    (clampFullScroll b).full_content_scroll ≤ (rustLines b.full_content).length - 1 := by
  unfold clampFullScroll
  split
  · exact Nat.le_refl _
  · omega

/-- **C2 amended.** After any key event, `selected` stays within
`[0, max(0, |filtered| − 1)]` (all offsets are `Nat`, hence ≥ 0), and the
*render-time* clamps bound `preview_scroll` and `full_content_scroll` by
their maxima.  Immediately after the key event itself a scroll offset may
exceed its maximum (see the counterexample): the bound is restored at the
next frame's render, not at the key event. -/
theorem stepKey_selected_in_bounds_and_render_clamps (env : Env) (ev : KeyEvent)
    (a : App) (h : selectedInBounds a) :
    selectedInBounds (stepKey env ev a) ∧
    (∀ numLines visible : Nat,
      (clampPreviewScroll numLines visible (stepKey env ev a)).preview_scroll ≤
        numLines - min visible numLines) ∧
    (clampFullScroll (stepKey env ev a)).full_content_scroll ≤
      (rustLines (stepKey env ev a).full_content).length - 1 := by
  refine ⟨?_, fun numLines visible => Nat.min_le_right _ _, clampFullScroll_le _⟩
  unfold stepKey
  split
  · exact selInv_stepConfirmExit ev h
  split
  · exact selInv_stepFullView ev h
  split
  · exact selInv_stepScopeModal env ev h
  split
  · exact selInv_stepFilterModal env ev h
  split
  · exact selInv_stepActionMode env ev h
  split
  · exact selInv_stepInputMode env _ ev h
  split
  · exact selInv_stepCommandMode env ev h
  split
  · exact selInv_stepJumpInput ev h
  exact selInv_stepNormal env ev h

theorem stepKey_selected_in_bounds_and_render_clamps_witness :
    selectedInBounds defaultApp ∧
      selectedInBounds (stepKey trivialEnv ⟨KeyCode.down, false⟩ defaultApp) :=
  ⟨Nat.le_refl 0,
   (stepKey_selected_in_bounds_and_render_clamps trivialEnv ⟨KeyCode.down, false⟩
     defaultApp (Nat.le_refl 0)).1⟩

/-- **C2 counterexample.** In the full view at the clamp maximum (three
content lines, offset 2), a `Down` key event raises `full_content_scroll`
to 3, strictly above its clamped maximum 2 — so the bound does not hold
immediately after the key event. -/
theorem down_key_exceeds_full_view_clamp :
    (stepKey trivialEnv ⟨KeyCode.down, false⟩ fullViewBottomApp).full_content_scroll = 3 ∧
      (rustLines fullViewBottomApp.full_content).length - 1 = 2 ∧
      (stepKey trivialEnv ⟨KeyCode.down, false⟩ fullViewBottomApp).full_content =
        fullViewBottomApp.full_content := by decide

end SearchUI
